import Mathlib

/-!
Verification development for the gym-chain management backend.

Shallow embedding of the arithmetic and state-passing utility functions of
the repository: GST invoice math and number-to-words conversion
(invoice_generator.py), the Haversine geofence distance and check-in route
(coach_features_routes.py), OTP storage and verification plus JWT
creation/decoding (auth.py), the lead status funnel (leads_routes.py), and
the plan-type parsing of generate_invoice_data (invoice_generator.py).

Python machine floats are modelled by exact rationals (or reals where the
code calls transcendental functions); Python round() is modelled as
round-half-to-even on rationals, int() as truncation toward zero, // and %
on ints as floor division and modulus.  Fallible operations (list indexing,
int() parsing) return Option/Except.
-/

namespace TumbleGym

/-- Python round() with no digits argument: round-half-to-even on a
rational, returning an integer. -/
def pyRound (q : ℚ) : ℤ :=
  if q - ⌊q⌋ = 1 / 2 then (if ⌊q⌋ % 2 = 0 then ⌊q⌋ else ⌊q⌋ + 1) else round q

/-- Python round(x, 2): round to two decimal places, half to even. -/
def round2 (q : ℚ) : ℚ := (pyRound (q * 100) : ℚ) / 100

/-- Python int() applied to a number: truncation toward zero. -/
def pyTrunc (q : ℚ) : ℤ := if 0 ≤ q then ⌊q⌋ else ⌈q⌉

/-- Result dictionary of calculate_gst (invoice_generator.py). -/
structure GstResult where
  base_amount : ℚ
  cgst_rate : ℚ
  cgst_amount : ℚ
  sgst_rate : ℚ
  sgst_amount : ℚ
  total_gst : ℚ
  total_amount : ℚ
deriving Repr, DecidableEq

/-- calculate_gst (invoice_generator.py, lines 40-58).  The Python default
for gst_rate is 18.0. -/
def calculate_gst (base_amount : ℚ) (gst_rate : ℚ := 18) : GstResult :=
  let cgst_rate := gst_rate / 2
  let sgst_rate := gst_rate / 2
  let cgst_amount := round2 (base_amount * cgst_rate / 100)
  let sgst_amount := round2 (base_amount * sgst_rate / 100)
  let total_gst := cgst_amount + sgst_amount
  let total_amount := base_amount + total_gst
  { base_amount := base_amount
    cgst_rate := cgst_rate
    cgst_amount := cgst_amount
    sgst_rate := sgst_rate
    sgst_amount := sgst_amount
    total_gst := total_gst
    total_amount := round2 total_amount }

/-- The ones list of number_to_words. -/
def ones : List String :=
  ["", "One", "Two", "Three", "Four", "Five", "Six", "Seven", "Eight", "Nine"]

/-- The tens list of number_to_words. -/
def tens : List String :=
  ["", "", "Twenty", "Thirty", "Forty", "Fifty", "Sixty", "Seventy",
   "Eighty", "Ninety"]

/-- The teens list of number_to_words. -/
def teens : List String :=
  ["Ten", "Eleven", "Twelve", "Thirteen", "Fourteen", "Fifteen",
   "Sixteen", "Seventeen", "Eighteen", "Nineteen"]

/-- Body of the inner convert_below_thousand of number_to_words
(invoice_generator.py, lines 160-170).  Python's recursion (which descends
from n to n % 100, hence terminates) is encoded structurally with a fuel
counter so that the definition reduces in the kernel; convert_below_thousand
below supplies sufficient fuel and convertFuel_eq shows the fuel is
irrelevant.  List indexing that would raise IndexError in Python is
Option-valued via List.get?. -/
def convertFuel : Nat → Nat → Option String
  | 0, _ => none
  | fuel + 1, n =>
    if n = 0 then some ""
    else if n < 10 then ones.get? n
    else if n < 20 then teens.get? (n - 10)
    else if n < 100 then
      (tens.get? (n / 10)).bind fun t =>
        if n % 10 ≠ 0 then (ones.get? (n % 10)).map fun o => t ++ " " ++ o
        else some t
    else
      (ones.get? (n / 100)).bind fun h =>
        if n % 100 ≠ 0 then
          (convertFuel fuel (n % 100)).map fun r => h ++ " Hundred " ++ r
        else some (h ++ " Hundred")

/-- convert_below_thousand of number_to_words: n + 1 units of fuel always
suffice since the only recursive call descends from n to n % 100 < n. -/
def convert_below_thousand (n : Nat) : Option String := convertFuel (n + 1) n

theorem convertFuel_mono :
    ∀ f g n, n < f → n < g → convertFuel f n = convertFuel g n := by
  intro f
  induction f with
  | zero => intro g n hf; omega
  | succ f ih =>
    intro g n hf hg
    cases g with
    | zero => omega
    | succ g =>
      show convertFuel (f + 1) n = convertFuel (g + 1) n
      unfold convertFuel
      by_cases h0 : n = 0
      · simp [h0]
      · by_cases h100 : n < 100
        · simp [h0, h100]
        · have hm100 : n % 100 < 100 := Nat.mod_lt n (by omega)
          have hmod : n % 100 < n := by omega
          have hrec : convertFuel f (n % 100) = convertFuel g (n % 100) :=
            ih g (n % 100) (by omega) (by omega)
          simp [h0, h100, hrec]

theorem convertFuel_eq (fuel n : Nat) (h : n < fuel) :
    convertFuel fuel n = convert_below_thousand n :=
  convertFuel_mono fuel (n + 1) n h (Nat.lt_succ_self n)

/-- number_to_words (invoice_generator.py, lines 153-201).  The rupee part
is int(num) (truncation toward zero), the paise part int(round((num -
rupees) * 100)); Python // and % on ints are floor division and modulus
(Int.fdiv / Int.fmod).  The group strings are accumulated in source order
and joined by " ".join.  The result is none exactly when Python raises
IndexError inside convert_below_thousand. -/
def number_to_words (num : ℚ) : Option String :=
  let rupees : ℤ := pyTrunc num
  let paise : ℤ := pyRound ((num - (rupees : ℚ)) * 100)
  let rupeePart : Option String :=
    if rupees = 0 then some "Zero Rupees"
    else
      let crores := rupees.fdiv 10000000
      let lakhs := (rupees.fmod 10000000).fdiv 100000
      let thousands := (rupees.fmod 100000).fdiv 1000
      let hundreds := rupees.fmod 1000
      let group : ℤ → String → Option (List String) := fun g unit =>
        if 0 < g then (convert_below_thousand g.toNat).map
          (fun s => [s ++ unit]) else some []
      (group crores " Crore").bind fun p1 =>
      (group lakhs " Lakh").bind fun p2 =>
      (group thousands " Thousand").bind fun p3 =>
      (if 0 < hundreds then (convert_below_thousand hundreds.toNat).map
          (fun s => [s]) else some []).map fun p4 =>
      String.intercalate " " (p1 ++ p2 ++ p3 ++ p4) ++ " Rupees"
  rupeePart.bind fun result =>
  (if 0 < paise then (convert_below_thousand paise.toNat).map
      (fun p => result ++ " and " ++ p ++ " Paise") else some result).map
    fun r => r ++ " Only"

/-- The digits-only core of Python int() on a string: one or more decimal
digits, otherwise ValueError (none). -/
def digitsVal (ds : List Char) : Option ℤ :=
  if ds ≠ [] ∧ ds.all Char.isDigit then
    some (ds.foldl (fun acc c => acc * 10 + ((c.toNat : ℤ) - 48)) 0)
  else none

/-- Python int() applied to a string (for strings without underscores, as
arise here): optional surrounding spaces, an optional sign, then one or
more decimal digits; anything else raises ValueError (none). -/
def pyStrToInt (s : List Char) : Option ℤ :=
  match ((s.dropWhile (· = ' ')).reverse.dropWhile (· = ' ')).reverse with
  | '+' :: ds => digitsVal ds
  | '-' :: ds => (digitsVal ds).map (fun v => -v)
  | ds => digitsVal ds

/-- Python str.replace on char lists: rewrite each leftmost non-overlapping
occurrence of pat by repl, scanning left to right.  The scan is encoded
structurally with a fuel counter bounding its length; pyReplace supplies
sufficient fuel (the scan consumes at least one character per step). -/
def pyReplaceFuel (pat repl : List Char) : Nat → List Char → List Char
  | _, [] => []
  | 0, s => s
  | fuel + 1, c :: cs =>
    if pat ≠ [] ∧ pat.isPrefixOf (c :: cs) then
      repl ++ pyReplaceFuel pat repl fuel ((c :: cs).drop pat.length)
    else c :: pyReplaceFuel pat repl fuel cs

def pyReplace (s pat repl : List Char) : List Char :=
  pyReplaceFuel pat repl s.length s

/-- classes_per_week / total_classes value: generate_invoice_data stores
either an int or the string "Unlimited" in these fields. -/
inductive ClassCount where
  | cnt (n : ℤ)
  | unlimitedCount
deriving Repr, DecidableEq

structure PlanClasses where
  classes_per_week : ClassCount
  total_classes : ClassCount
deriving Repr, DecidableEq

/-- The classes_per_week / total_classes computation of generate_invoice_data
(invoice_generator.py, lines 79-91), with the date subtraction abstracted to
duration_days = (end_date - start_date).days.  frequency is
plan_type.split('_')[0] when plan_type contains '_' (the part before the
first underscore), else '2day'; classes_per_week is
int(frequency.replace('day', '')) unless frequency equals 'unlimited';
total_classes is int(classes_per_week * (duration_days / 7)); a ValueError
from int() is the error case. -/
def plan_type_classes (plan_type : String) (duration_days : ℤ) :
    Except String PlanClasses :=
  let frequency : List Char :=
    if plan_type.data.contains '_' then plan_type.data.takeWhile (· ≠ '_')
    else "2day".data
  if frequency = "unlimited".data then
    { classes_per_week := ClassCount.unlimitedCount,
      total_classes := ClassCount.unlimitedCount : PlanClasses } |> .ok
  else
    match pyStrToInt (pyReplace frequency "day".data []) with
    | none => .error "ValueError"
    | some n =>
        .ok { classes_per_week := .cnt n,
              total_classes := .cnt (pyTrunc ((n : ℚ) * (duration_days : ℚ) / 7)) }

section Geo

open scoped Classical

noncomputable section

/-- math.radians: degrees to radians. -/
def radians (x : ℝ) : ℝ := x * (Real.pi / 180)

/-- Model of math.atan2 with the C sign conventions used by Python's math
module; the IEEE signed-zero distinctions collapse (atan2 0 x for x ≤ 0
follows the +0 convention), which is immaterial here since both arguments
are square roots. -/
def atan2 (y x : ℝ) : ℝ :=
  if 0 < x then Real.arctan (y / x)
  else if x < 0 ∧ 0 ≤ y then Real.arctan (y / x) + Real.pi
  else if x < 0 ∧ y < 0 then Real.arctan (y / x) - Real.pi
  else if x = 0 ∧ 0 < y then Real.pi / 2
  else if x = 0 ∧ y < 0 then -(Real.pi / 2)
  else 0

/-- calculate_distance (coach_features_routes.py, lines 70-83): Haversine
great-circle distance in meters. -/
def calculate_distance (lat1 lon1 lat2 lon2 : ℝ) : ℝ :=
  let R : ℝ := 6371000
  let phi1 := radians lat1
  let phi2 := radians lat2
  let delta_phi := radians (lat2 - lat1)
  let delta_lambda := radians (lon2 - lon1)
  let a := Real.sin (delta_phi / 2) ^ 2 +
    Real.cos phi1 * Real.cos phi2 * Real.sin (delta_lambda / 2) ^ 2
  let c := 2 * atan2 (Real.sqrt a) (Real.sqrt (1 - a))
  R * c

/-- Python round() on a real, round-half-to-even. -/
def pyRoundR (x : ℝ) : ℤ :=
  if x - ⌊x⌋ = 1 / 2 then (if ⌊x⌋ % 2 = 0 then ⌊x⌋ else ⌊x⌋ + 1) else round x

/-- Python round(x, 2) on a real. -/
def round2R (x : ℝ) : ℝ := ((pyRoundR (x * 100) : ℤ) : ℝ) / 100

/-- The fields of a locations document used by geofence_check_in; lat, lng
and geofence_radius may be absent. -/
structure Center where
  lat : Option ℝ
  lng : Option ℝ
  geofence_radius : Option ℝ

/-- Request body of the check-in route. -/
structure GeofenceCheckIn where
  latitude : ℝ
  longitude : ℝ
  center_id : String

/-- Document inserted into coach_checkins by geofence_check_in. -/
structure CheckinLog where
  coach_id : String
  center_id : String
  latitude : ℝ
  longitude : ℝ
  distance_from_center : ℝ
  within_geofence : Bool
  check_type : String

/-- JSON response of geofence_check_in (message text and timestamps are not
modelled). -/
structure CheckInResponse where
  success : Bool
  distance : ℝ
  required_distance : Option ℝ
  within_geofence : Bool

inductive CheckInOutcome where
  | httpError (statusCode : ℕ)
  | resp (r : CheckInResponse)

/-- geofence_check_in (coach_features_routes.py, lines 87-176), as a pure
function of the acting user's role and id, the looked-up center document
and the request; the second component lists the documents inserted into
coach_checkins.  Python truthiness: `not center_lat` holds when lat is
absent (None) or equals 0.0, and likewise for lng.  The success-path
coach_sessions upsert touches a different collection and is not modelled. -/
def geofence_check_in (role coach_id : String) (center : Option Center)
    (checkin : GeofenceCheckIn) : CheckInOutcome × List CheckinLog :=
  if role ≠ "coach" then (.httpError 403, [])
  else
    match center with
    | none => (.httpError 404, [])
    | some c =>
      match c.lat, c.lng with
      | some center_lat, some center_lng =>
        if center_lat = 0 ∨ center_lng = 0 then (.httpError 400, [])
        else
          let distance := calculate_distance checkin.latitude
            checkin.longitude center_lat center_lng
          let geofence_radius := c.geofence_radius.getD 100
          let within_geofence : Bool :=
            if distance ≤ geofence_radius then true else false
          let log : CheckinLog :=
            { coach_id := coach_id
              center_id := checkin.center_id
              latitude := checkin.latitude
              longitude := checkin.longitude
              distance_from_center := round2R distance
              within_geofence := within_geofence
              check_type := "check_in" }
          if distance ≤ geofence_radius then
            (.resp { success := true, distance := round2R distance,
                     required_distance := none, within_geofence := true },
             [log])
          else
            (.resp { success := false, distance := round2R distance,
                     required_distance := some geofence_radius,
                     within_geofence := false },
             [log])
      | _, _ => (.httpError 400, [])

end

end Geo

/-- otp_store entry written by store_otp (auth.py).  Times are integer
timestamps in seconds. -/
structure OtpEntry where
  otp : String
  expires_at : ℤ
deriving Repr, DecidableEq

/-- The in-memory otp_store dict, as an association list with unique keys. -/
abbrev OtpStore := List (String × OtpEntry)

/-- Python del store[phone]. -/
def dictErase (store : OtpStore) (phone : String) : OtpStore :=
  store.filter fun p => p.1 != phone

/-- Python dict assignment store[phone] = entry: replace in place when the
key exists, else append. -/
def dictSet (store : OtpStore) (phone : String) (e : OtpEntry) : OtpStore :=
  if (store.lookup phone).isSome then
    store.map fun p => if p.1 == phone then (phone, e) else p
  else store ++ [(phone, e)]

/-- store_otp (auth.py, lines 67-73); expires_in_minutes defaults to 10. -/
def store_otp (store : OtpStore) (phone otp : String) (now : ℤ)
    (expires_in_minutes : ℤ := 10) : OtpStore :=
  dictSet store phone
    { otp := otp, expires_at := now + expires_in_minutes * 60 }

/-- verify_otp (auth.py, lines 75-92): the boolean result together with the
updated otp_store.  datetime.utcnow() > expires_at is the expiry test. -/
def verify_otp (store : OtpStore) (phone otp : String) (now : ℤ) :
    Bool × OtpStore :=
  match store.lookup phone with
  | none => (false, store)
  | some stored =>
    if stored.expires_at < now then (false, dictErase store phone)
    else if stored.otp = otp then (true, dictErase store phone)
    else (false, store)

/-- JSON claim values occurring in token payloads. -/
inductive JValue where
  | jstr (v : String)
  | jint (v : ℤ)
deriving Repr, DecidableEq

abbrev Claims := List (String × JValue)

/-- Modelled from the library API: python-jose's jwt.encode/jwt.decode are
a dependency, not repository code; they are modelled symbolically.  A token
carries its claims, signing key and algorithm; decode succeeds exactly when
the key matches, the algorithm is allowed, and the registered exp claim (if
present) has not passed (valid while now < exp, per RFC 7519). -/
structure Token where
  claims : Claims
  key : String
  alg : String
deriving Repr, DecidableEq

def jwtEncode (claims : Claims) (key alg : String) : Token :=
  { claims := claims, key := key, alg := alg }

/-- Whether the exp claim admits the current time. -/
def expOk (c : Claims) (now : ℤ) : Bool :=
  match c.lookup "exp" with
  | some (.jint e) => now < e
  | some (.jstr _) => false
  | none => true

def jwtDecode (t : Token) (key : String) (algs : List String) (now : ℤ) :
    Option Claims :=
  if (t.key == key) && algs.contains t.alg && expOk t.claims now then
    some t.claims
  else none

/-- SECRET_KEY (auth.py, line 10): the in-code default, the environment
override being absent in this model. -/
def SECRET_KEY : String := "tumble-gym-secret-key-change-in-production"

def ALGORITHM : String := "HS256"

/-- auth.py, line 12: 30 days expressed in minutes. -/
def ACCESS_TOKEN_EXPIRE_MINUTES : ℤ := 60 * 24 * 30

/-- Python dict.update {"exp": expire} on the payload copy: replace an
existing "exp" entry in place, else append. -/
def dictSetClaim (c : Claims) (k : String) (v : JValue) : Claims :=
  if (c.lookup k).isSome then c.map (fun p => if p.1 == k then (k, v) else p)
  else c ++ [(k, v)]

/-- create_access_token (auth.py, lines 28-37); time in integer seconds,
expires_delta a timedelta in seconds (None as Option.none; Python's `if
expires_delta` is falsy also for timedelta(0)). -/
def create_access_token (data : Claims) (now : ℤ)
    (expires_delta : Option ℤ) : Token :=
  let expire := match expires_delta with
    | some d => if d ≠ 0 then now + d else now + ACCESS_TOKEN_EXPIRE_MINUTES * 60
    | none => now + ACCESS_TOKEN_EXPIRE_MINUTES * 60
  jwtEncode (dictSetClaim data "exp" (.jint expire)) SECRET_KEY ALGORITHM

/-- decode_token (auth.py, lines 39-49): a JWTError becomes a 401
HTTPException. -/
def decode_token (t : Token) (now : ℤ) : Except ℕ Claims :=
  match jwtDecode t SECRET_KEY [ALGORITHM] now with
  | some payload => .ok payload
  | none => .error 401

/-- Timeline event document pushed onto a lead's timeline array
(leads_routes.py); the Python keys "from", "to", "by" are fromStatus,
toStatus, byUser here. -/
structure TimelineEvent where
  event : String
  fromStatus : Option String
  toStatus : Option String
  byUser : Option String
  details : Option String
deriving Repr, DecidableEq

/-- The lead document fields relevant to the status funnel. -/
structure Lead where
  id : String
  phone : String
  preferred_centre : String
  status : String
  timeline : List TimelineEvent
  created_at : ℤ
deriving Repr, DecidableEq

/-- The five funnel statuses enumerated by get_lead_analytics
(leads_routes.py, lines 677-681). -/
def funnelStatuses : List String :=
  ["new", "contacted", "trial_booked", "enrolled", "lost"]

/-- The new-lead document built by create_lead (leads_routes.py, lines
144-181), restricted to the modelled fields: status starts at "new" and the
timeline holds the single "created" event. -/
def newLead (id phone centre source : String) (now : ℤ) : Lead :=
  { id := id, phone := phone, preferred_centre := centre, status := "new",
    created_at := now,
    timeline := [{ event := "created", fromStatus := none, toStatus := none,
                   byUser := none,
                   details := some ("Lead created from " ++ source) }] }

/-- create_lead (leads_routes.py, lines 92-181) after validation: when
check_duplicate_lead finds a lead with the same phone and preferred_centre
created within 30 days, only its notes/updated_at are touched (no modelled
field changes, no insertion); otherwise the new document is appended. -/
def create_lead (store : List Lead) (id phone centre source : String)
    (now : ℤ) : List Lead :=
  if store.any (fun l =>
      l.phone == phone && l.preferred_centre == centre &&
        now - 30 * 86400 ≤ l.created_at) then store
  else store ++ [newLead id phone centre source now]

/-- The update dict passed to update_lead, restricted to its status key;
other $set keys do not touch the modelled fields. -/
structure LeadUpdates where
  status : Option String
deriving Repr, DecidableEq

/-- update_lead (leads_routes.py, lines 332-368) acting on the document
matched by lead_id: when the update carries a status different from the
current one, a status_change timeline event recording the old status, the
new status and the acting user is pushed; then the $set is applied
unconditionally — the status value is not validated. -/
def update_lead (lead : Lead) (updates : LeadUpdates) (userSub : String) :
    Lead :=
  let withTimeline :=
    match updates.status with
    | some s =>
      if s ≠ lead.status then
        { lead with timeline := lead.timeline ++
            [{ event := "status_change", fromStatus := some lead.status,
               toStatus := some s, byUser := some userSub, details := none }] }
      else lead
    | none => lead
  match updates.status with
  | some s => { withTimeline with status := s }
  | none => withTimeline

/-! ## Claim theorems -/

/-- C1: for every base_amount and gst_rate (default 18), calculate_gst
splits the GST evenly into CGST and SGST: cgst_rate = sgst_rate =
gst_rate / 2, cgst_amount = sgst_amount = round(base_amount * rate_half /
100, 2), total_gst = cgst_amount + sgst_amount, and total_amount =
round(base_amount + total_gst, 2). -/
theorem C1_calculate_gst_split (base_amount gst_rate : ℚ) :
    (calculate_gst base_amount gst_rate).cgst_rate = gst_rate / 2 ∧
    (calculate_gst base_amount gst_rate).sgst_rate = gst_rate / 2 ∧
    (calculate_gst base_amount gst_rate).cgst_amount =
      round2 (base_amount * (gst_rate / 2) / 100) ∧
    (calculate_gst base_amount gst_rate).sgst_amount =
      round2 (base_amount * (gst_rate / 2) / 100) ∧
    (calculate_gst base_amount gst_rate).total_gst =
      (calculate_gst base_amount gst_rate).cgst_amount +
        (calculate_gst base_amount gst_rate).sgst_amount ∧
    (calculate_gst base_amount gst_rate).total_amount =
      round2 (base_amount + (calculate_gst base_amount gst_rate).total_gst) ∧
    calculate_gst base_amount = calculate_gst base_amount 18 :=
  ⟨rfl, rfl, rfl, rfl, rfl, rfl, rfl⟩

/-- C6: calculate_gst, number_to_words and calculate_distance are pure:
two runs on equal arguments return equal results, and the embedded
functions read and write no state outside their arguments. -/
theorem C6_pure_two_run :
    (∀ b₁ b₂ r₁ r₂ : ℚ, b₁ = b₂ → r₁ = r₂ →
      calculate_gst b₁ r₁ = calculate_gst b₂ r₂) ∧
    (∀ q₁ q₂ : ℚ, q₁ = q₂ → number_to_words q₁ = number_to_words q₂) ∧
    (∀ a₁ a₂ b₁ b₂ c₁ c₂ d₁ d₂ : ℝ, a₁ = a₂ → b₁ = b₂ → c₁ = c₂ → d₁ = d₂ →
      calculate_distance a₁ b₁ c₁ d₁ = calculate_distance a₂ b₂ c₂ d₂) := by
  refine ⟨?_, ?_, ?_⟩
  · intro b₁ b₂ r₁ r₂ hb hr; rw [hb, hr]
  · intro q₁ q₂ hq; rw [hq]
  · intro a₁ a₂ b₁ b₂ c₁ c₂ d₁ d₂ ha hb hc hd; rw [ha, hb, hc, hd]

theorem C6_pure_two_run_witness :
    calculate_gst 100 18 = calculate_gst 100 18 ∧
    number_to_words 25 = number_to_words 25 ∧
    calculate_distance 1 2 3 4 = calculate_distance 1 2 3 4 :=
  ⟨C6_pure_two_run.1 100 100 18 18 rfl rfl,
   C6_pure_two_run.2.1 25 25 rfl,
   C6_pure_two_run.2.2 1 1 2 2 3 3 4 4 rfl rfl rfl rfl⟩

/-- C7 counterexample: the claim that every lead's status stays within the
funnel set {new, contacted, trial_booked, enrolled, lost} is false: a lead
created by create_lead (status "new") whose update carries status "junk"
ends with status "junk", outside the funnel set — update_lead does not
validate the status value. -/
theorem C7_counterexample :
    (update_lead (newLead "L1" "9990001111" "HSR" "website" 0)
        { status := some "junk" } "admin-1").status ∉ funnelStatuses := by
  decide

/-- C7 (amended): every lead created by create_lead starts with status
"new" (and create_lead either inserts exactly that document or, on a
duplicate, inserts nothing); every update that changes the status appends a
status_change timeline event recording the old status, the new status and
the acting user; but the applied status is whatever string the update
carries — it is not constrained to the funnel set used by the analytics
breakdown. -/
theorem C7_lead_funnel_amended :
    (∀ id phone centre source : String, ∀ now : ℤ,
      (newLead id phone centre source now).status = "new") ∧
    (∀ store : List Lead, ∀ id phone centre source : String, ∀ now : ℤ,
      create_lead store id phone centre source now = store ∨
      create_lead store id phone centre source now =
        store ++ [newLead id phone centre source now]) ∧
    (∀ lead : Lead, ∀ s user : String, s ≠ lead.status →
      update_lead lead { status := some s } user =
        { lead with status := s, timeline := lead.timeline ++
            [{ event := "status_change", fromStatus := some lead.status,
               toStatus := some s, byUser := some user, details := none }] }) ∧
    (∀ lead : Lead, ∀ s user : String,
      (update_lead lead { status := some s } user).status = s) ∧
    (∀ lead : Lead, ∀ user : String,
      update_lead lead { status := none } user = lead) := by
  refine ⟨fun _ _ _ _ _ => rfl, ?_, ?_, ?_, fun _ _ => rfl⟩
  · intro store id phone centre source now
    unfold create_lead
    split
    · left; rfl
    · right; rfl
  · intro lead s user h
    unfold update_lead
    simp [h]
  · intro lead s user
    unfold update_lead
    by_cases h : s = lead.status <;> simp [h]

theorem C7_lead_funnel_amended_witness :
    update_lead (newLead "L1" "9990001111" "HSR" "website" 0)
        { status := some "contacted" } "admin-1" =
      { newLead "L1" "9990001111" "HSR" "website" 0 with
          status := "contacted",
          timeline := (newLead "L1" "9990001111" "HSR" "website" 0).timeline ++
            [{ event := "status_change", fromStatus := some "new",
               toStatus := some "contacted", byUser := some "admin-1",
               details := none }] } :=
  C7_lead_funnel_amended.2.2.1 (newLead "L1" "9990001111" "HSR" "website" 0)
    "contacted" "admin-1" (by decide)

theorem dictErase_lookup_none (store : OtpStore) (phone : String) :
    (dictErase store phone).lookup phone = none := by
  induction store with
  | nil => rfl
  | cons p rest ih =>
    obtain ⟨k, v⟩ := p
    show (List.filter (fun q => q.1 != phone) ((k, v) :: rest)).lookup phone = none
    rw [List.filter_cons]
    by_cases h : k = phone
    · have hb : (((k, v) : String × OtpEntry).1 != phone) = false := by simp [h]
      rw [hb]
      exact ih
    · have hb : (((k, v) : String × OtpEntry).1 != phone) = true := by simp [h]
      rw [hb]
      have hk : (phone == k) = false := by simp [Ne.symm h]
      simp only [List.lookup, hk]
      exact ih

/-- C8: verify_otp returns true iff an unexpired entry for the phone holds
exactly this OTP; a successful match deletes the entry (so an immediate
second identical call returns false); an expired entry is deleted with
result false; a mere mismatch leaves the store unchanged, so after any
wrong guess the correct OTP still verifies. -/
theorem C8_verify_otp_spec (store : OtpStore) (phone otp : String) (now : ℤ) :
    ((verify_otp store phone otp now).1 = true ↔
      ∃ e, store.lookup phone = some e ∧ now ≤ e.expires_at ∧ e.otp = otp) ∧
    ((verify_otp store phone otp now).1 = true →
      (verify_otp store phone otp now).2 = dictErase store phone ∧
      (verify_otp (verify_otp store phone otp now).2 phone otp now).1 = false) ∧
    (∀ e, store.lookup phone = some e → e.expires_at < now →
      verify_otp store phone otp now = (false, dictErase store phone)) ∧
    (∀ e, store.lookup phone = some e → now ≤ e.expires_at → e.otp ≠ otp →
      verify_otp store phone otp now = (false, store)) ∧
    (∀ e (wrong : String), store.lookup phone = some e → now ≤ e.expires_at →
      e.otp ≠ wrong → e.otp = otp →
      (verify_otp (verify_otp store phone wrong now).2 phone otp now).1 = true) := by
  cases hl : store.lookup phone with
  | none =>
    refine ⟨?_, ?_, ?_, ?_, ?_⟩
    · simp [verify_otp, hl]
    · simp [verify_otp, hl]
    · intro e he; exact absurd he (by simp)
    · intro e he; exact absurd he (by simp)
    · intro e _ he; exact absurd he (by simp)
  | some stored =>
    refine ⟨?_, ?_, ?_, ?_, ?_⟩
    · constructor
      · intro h
        simp only [verify_otp, hl] at h
        split_ifs at h with h1 h2
        exact ⟨stored, rfl, le_of_not_lt h1, h2⟩
      · rintro ⟨e, he, hexp, hotp⟩
        injection he with he
        subst he
        simp [verify_otp, hl, not_lt.mpr hexp, hotp]
    · intro h
      simp only [verify_otp, hl] at h
      split_ifs at h with h1 h2
      have hres : verify_otp store phone otp now =
          (true, dictErase store phone) := by
        simp [verify_otp, hl, h1, h2]
      rw [hres]
      exact ⟨rfl, by simp [verify_otp, dictErase_lookup_none store phone]⟩
    · intro e he hexp
      injection he with he
      subst he
      simp [verify_otp, hl, hexp]
    · intro e he hexp hne
      injection he with he
      subst he
      simp [verify_otp, hl, not_lt.mpr hexp, hne]
    · intro e wrong he hexp hne hotp
      injection he with he
      subst he
      have hstep : verify_otp store phone wrong now = (false, store) := by
        simp [verify_otp, hl, not_lt.mpr hexp, hne]
      rw [hstep]
      simp [verify_otp, hl, not_lt.mpr hexp, hotp]

theorem C8_verify_otp_spec_witness :
    verify_otp [("9990001111", { otp := "123456", expires_at := 600 })]
        "9990001111" "999999" 30 =
      (false, [("9990001111", { otp := "123456", expires_at := 600 })]) ∧
    (verify_otp
        (verify_otp [("9990001111", { otp := "123456", expires_at := 600 })]
          "9990001111" "999999" 30).2
        "9990001111" "123456" 30).1 = true :=
  ⟨(C8_verify_otp_spec [("9990001111", { otp := "123456", expires_at := 600 })]
      "9990001111" "999999" 30).2.2.2.1
      { otp := "123456", expires_at := 600 } rfl (by decide) (by decide),
   (C8_verify_otp_spec [("9990001111", { otp := "123456", expires_at := 600 })]
      "9990001111" "123456" 30).2.2.2.2
      { otp := "123456", expires_at := 600 } "999999" rfl (by decide)
      (by decide) rfl⟩

theorem lookup_eq_none_of_not_mem (c : Claims) (k : String)
    (h : k ∉ c.map Prod.fst) : c.lookup k = none := by
  induction c with
  | nil => rfl
  | cons p rest ih =>
    obtain ⟨k', v⟩ := p
    simp only [List.map_cons, List.mem_cons] at h
    push_neg at h
    have hk : (k == k') = false := by simp [h.1]
    simp only [List.lookup, hk]
    exact ih h.2

theorem lookup_append_of_not_mem (c rest : Claims) (k : String)
    (h : k ∉ c.map Prod.fst) : (c ++ rest).lookup k = rest.lookup k := by
  induction c with
  | nil => rfl
  | cons p cs ih =>
    obtain ⟨k', v⟩ := p
    simp only [List.map_cons, List.mem_cons] at h
    push_neg at h
    have hk : (k == k') = false := by simp [h.1]
    simp only [List.cons_append, List.lookup, hk]
    exact ih h.2

theorem dictSetClaim_append (c : Claims) (k : String) (v : JValue)
    (h : k ∉ c.map Prod.fst) : dictSetClaim c k v = c ++ [(k, v)] := by
  unfold dictSetClaim
  rw [lookup_eq_none_of_not_mem c k h]
  simp

/-- C9: decoding a token produced by create_access_token before its expiry
returns exactly the input payload extended with the exp claim at creation
time plus expires_delta (30 days when omitted — ACCESS_TOKEN_EXPIRE_MINUTES
is 30 days in minutes), and decode_token returns a 401 error on a token
with the wrong key, a disallowed algorithm, or a passed expiry. -/
theorem C9_jwt_roundtrip :
    (∀ (d : Claims) (now delta tnow : ℤ), "exp" ∉ d.map Prod.fst →
      0 < delta → tnow < now + delta →
      decode_token (create_access_token d now (some delta)) tnow =
        .ok (d ++ [("exp", .jint (now + delta))])) ∧
    (∀ (d : Claims) (now tnow : ℤ), "exp" ∉ d.map Prod.fst →
      tnow < now + ACCESS_TOKEN_EXPIRE_MINUTES * 60 →
      decode_token (create_access_token d now none) tnow =
        .ok (d ++ [("exp", .jint (now + ACCESS_TOKEN_EXPIRE_MINUTES * 60))])) ∧
    ACCESS_TOKEN_EXPIRE_MINUTES * 60 = 30 * 86400 ∧
    (∀ (t : Token) (tnow : ℤ),
      t.key ≠ SECRET_KEY ∨ t.alg ≠ ALGORITHM ∨
        (∃ e, t.claims.lookup "exp" = some (.jint e) ∧ e ≤ tnow) →
      decode_token t tnow = .error 401) := by
  refine ⟨?_, ?_, by decide, ?_⟩
  · intro d now delta tnow hmem hpos hlt
    have hd0 : delta ≠ 0 := by omega
    have hset := dictSetClaim_append d "exp" (.jint (now + delta)) hmem
    have hlook : (d ++ [("exp", JValue.jint (now + delta))]).lookup "exp" =
        some (.jint (now + delta)) :=
      (lookup_append_of_not_mem d _ "exp" hmem).trans rfl
    simp [create_access_token, jwtEncode, decode_token, jwtDecode, expOk,
      hd0, hset, hlook, hlt]
  · intro d now tnow hmem hlt
    have hset := dictSetClaim_append d "exp"
      (.jint (now + ACCESS_TOKEN_EXPIRE_MINUTES * 60)) hmem
    have hlook : (d ++ [("exp",
        JValue.jint (now + ACCESS_TOKEN_EXPIRE_MINUTES * 60))]).lookup "exp" =
        some (.jint (now + ACCESS_TOKEN_EXPIRE_MINUTES * 60)) :=
      (lookup_append_of_not_mem d _ "exp" hmem).trans rfl
    simp only [create_access_token, jwtEncode, decode_token, jwtDecode, hset]
    simp [expOk, hlook, hlt]
  · intro t tnow h
    rcases h with hk | ha | ⟨e, he, hle⟩
    · have hb : (t.key == SECRET_KEY) = false := by simp [hk]
      simp [decode_token, jwtDecode, hb]
    · simp [decode_token, jwtDecode, ha]
    · have hb : expOk t.claims tnow = false := by
        simp [expOk, he, not_lt.mpr hle]
      simp [decode_token, jwtDecode, hb]

theorem C9_jwt_roundtrip_witness :
    decode_token
        (create_access_token [("sub", .jstr "user-1")] 0 (some 3600)) 60 =
      .ok ([("sub", .jstr "user-1")] ++ [("exp", .jint ((0 : ℤ) + 3600))]) :=
  C9_jwt_roundtrip.1 [("sub", .jstr "user-1")] 0 3600 60 (by decide)
    (by decide) (by decide)

theorem day_not_prefix_of_ne {c : Char} (cs : List Char) (h : c ≠ 'd') :
    (['d', 'a', 'y'].isPrefixOf (c :: cs)) = false := by
  have hb : ('d' == c) = false := beq_eq_false_iff_ne.mpr fun e => h e.symm
  simp [List.isPrefixOf, hb]

theorem pyReplaceFuel_digits (ds : List Char) (h : ∀ c ∈ ds, c ≠ 'd') :
    pyReplaceFuel ['d', 'a', 'y'] [] (ds.length + 3) (ds ++ ['d', 'a', 'y']) =
      ds := by
  induction ds with
  | nil => rfl
  | cons c cs ih =>
    have hlen : (c :: cs).length + 3 = (cs.length + 3) + 1 := by
      simp [List.length_cons]
    rw [hlen, List.cons_append]
    have hpre := day_not_prefix_of_ne (cs ++ ['d', 'a', 'y'])
      (h c (List.mem_cons_self c cs))
    show (if ['d', 'a', 'y'] ≠ [] ∧
        ['d', 'a', 'y'].isPrefixOf (c :: (cs ++ ['d', 'a', 'y'])) then
          [] ++ pyReplaceFuel ['d', 'a', 'y'] [] (cs.length + 3)
            ((c :: (cs ++ ['d', 'a', 'y'])).drop ['d', 'a', 'y'].length)
        else c :: pyReplaceFuel ['d', 'a', 'y'] [] (cs.length + 3)
          (cs ++ ['d', 'a', 'y'])) = c :: cs
    rw [if_neg (by simp [hpre])]
    exact congrArg (c :: ·) (ih fun x hx => h x (List.mem_cons_of_mem c hx))

theorem dropWhile_space_eq_self (l : List Char) (h : ∀ c ∈ l, c ≠ ' ') :
    l.dropWhile (· = ' ') = l := by
  cases l with
  | nil => rfl
  | cons c cs =>
    rw [List.dropWhile_cons]
    rw [if_neg (by simp [h c (List.mem_cons_self c cs)])]

theorem pyStrToInt_digits (ds : List Char) (hne : ds ≠ [])
    (h : ∀ c ∈ ds, c.isDigit = true) : pyStrToInt ds = digitsVal ds := by
  have hnsp : ∀ c ∈ ds, c ≠ ' ' := by
    intro c hc he
    have := h c hc
    rw [he] at this
    exact absurd this (by decide)
  have h1 : ds.dropWhile (· = ' ') = ds := dropWhile_space_eq_self ds hnsp
  have h2 : ds.reverse.dropWhile (· = ' ') = ds.reverse :=
    dropWhile_space_eq_self ds.reverse fun c hc =>
      hnsp c (List.mem_reverse.mp hc)
  cases ds with
  | nil => exact absurd rfl hne
  | cons c cs =>
    have hc := h c (List.mem_cons_self c cs)
    have hplus : c ≠ '+' := by
      intro he; rw [he] at hc; exact absurd hc (by decide)
    have hminus : c ≠ '-' := by
      intro he; rw [he] at hc; exact absurd hc (by decide)
    show pyStrToInt (c :: cs) = digitsVal (c :: cs)
    unfold pyStrToInt
    rw [h1, h2, List.reverse_reverse]
    split
    · next ds' heq =>
      exact absurd (List.head_eq_of_cons_eq heq) hplus
    · next ds' heq =>
      exact absurd (List.head_eq_of_cons_eq heq) hminus
    · rfl

/-- C10 counterexample: the claim that every plan_type whose prefix is
neither of the form "&lt;n&gt;day" nor "unlimited" raises ValueError is
false: "3_month" has prefix "3" — one character, so not digits followed by
"day", and not "unlimited" — yet generate_invoice_data computes 3 classes
per week and int(3 * 84 / 7) = 36 total classes instead of raising. -/
theorem C10_counterexample :
    (if "3_month".data.contains '_' then "3_month".data.takeWhile (· ≠ '_')
     else "2day".data) = "3".data ∧
    (¬ ∃ ds : List Char, (∀ c ∈ ds, c.isDigit = true) ∧
      "3".data = ds ++ ['d', 'a', 'y']) ∧
    "3".data ≠ "unlimited".data ∧
    plan_type_classes "3_month" 84 =
      .ok { classes_per_week := .cnt 3, total_classes := .cnt 36 } := by
  refine ⟨by decide, ?_, by decide, ?_⟩
  · rintro ⟨ds, _, hlen⟩
    have := congrArg List.length hlen
    simp [List.length_append] at this
  · have h36 : pyTrunc (((3 : ℤ) : ℚ) * ((84 : ℤ) : ℚ) / 7) = 36 := by
      have hq : ((3 : ℤ) : ℚ) * ((84 : ℤ) : ℚ) / 7 = (36 : ℚ) := by norm_num
      unfold pyTrunc
      rw [hq, if_pos (by norm_num)]
      simp
    have hint : pyStrToInt (pyReplace (if "3_month".data.contains '_' then
        "3_month".data.takeWhile (· ≠ '_') else "2day".data) "day".data []) =
        some 3 := by decide
    simp only [plan_type_classes]
    rw [if_neg (by decide), hint]
    simp only [h36]

/-- C10 (amended): generate_invoice_data takes frequency = the part of
plan_type before the first underscore ("2day" when plan_type contains no
underscore); frequency "unlimited" yields "Unlimited" for both
classes_per_week and total_classes; otherwise classes_per_week is
int(frequency with every occurrence of "day" deleted) and total_classes =
int(classes_per_week * duration_days / 7) — in particular a frequency of
digits followed by "day" yields that integer — and generate_invoice_data
raises ValueError exactly when the deletion result does not parse as an
integer (so a prefix like "3" succeeds with 3 rather than raising). -/
theorem C10_plan_type_amended (plan_type : String) (duration_days : ℤ)
    (freq : List Char)
    (hfreq : freq = if plan_type.data.contains '_' then
        plan_type.data.takeWhile (· ≠ '_') else "2day".data) :
    (¬ plan_type.data.contains '_' = true → freq = "2day".data) ∧
    (freq = "unlimited".data →
      plan_type_classes plan_type duration_days =
        .ok { classes_per_week := .unlimitedCount,
              total_classes := .unlimitedCount }) ∧
    (∀ n : ℤ, freq ≠ "unlimited".data →
      pyStrToInt (pyReplace freq "day".data []) = some n →
      plan_type_classes plan_type duration_days =
        .ok { classes_per_week := .cnt n,
              total_classes :=
                .cnt (pyTrunc ((n : ℚ) * (duration_days : ℚ) / 7)) }) ∧
    (freq ≠ "unlimited".data →
      pyStrToInt (pyReplace freq "day".data []) = none →
      plan_type_classes plan_type duration_days = .error "ValueError") ∧
    (∀ ds : List Char, ds ≠ [] → (∀ c ∈ ds, c.isDigit = true) →
      freq = ds ++ ['d', 'a', 'y'] →
      ∀ n : ℤ, digitsVal ds = some n →
      plan_type_classes plan_type duration_days =
        .ok { classes_per_week := .cnt n,
              total_classes :=
                .cnt (pyTrunc ((n : ℚ) * (duration_days : ℚ) / 7)) }) := by
  have hday : ("day".data : List Char) = ['d', 'a', 'y'] := rfl
  refine ⟨?_, ?_, ?_, ?_, ?_⟩
  · intro h
    rw [hfreq, if_neg h]
  · intro hu
    simp only [plan_type_classes]
    rw [← hfreq, if_pos hu]
  · intro n hu hsome
    simp only [plan_type_classes]
    rw [← hfreq, if_neg hu, hsome]
  · intro hu hnone
    simp only [plan_type_classes]
    rw [← hfreq, if_neg hu, hnone]
  · intro ds hne hdig hform n hval
    have hd' : ∀ c ∈ ds, c ≠ 'd' := by
      intro c hc he
      have hdc := hdig c hc
      rw [he] at hdc
      exact absurd hdc (by decide)
    have hrep : pyReplace freq "day".data [] = ds := by
      rw [hform, hday]
      show pyReplaceFuel ['d', 'a', 'y'] []
        (ds ++ ['d', 'a', 'y']).length (ds ++ ['d', 'a', 'y']) = ds
      have hlen : (ds ++ ['d', 'a', 'y']).length = ds.length + 3 := by
        simp [List.length_append]
      rw [hlen]
      exact pyReplaceFuel_digits ds hd'
    have hint : pyStrToInt (pyReplace freq "day".data []) = some n := by
      rw [hrep, pyStrToInt_digits ds hne hdig, hval]
    have hul : freq ≠ "unlimited".data := by
      rw [hform]
      intro he
      have h1 := congrArg List.getLast? he
      rw [List.getLast?_append_of_ne_nil ds (by decide)] at h1
      exact absurd h1 (by decide)
    simp only [plan_type_classes]
    rw [← hfreq, if_neg hul, hint]

theorem C10_plan_type_amended_witness :
    plan_type_classes "2day_6month" 180 =
      .ok { classes_per_week := .cnt 2,
            total_classes :=
              .cnt (pyTrunc (((2 : ℤ) : ℚ) * ((180 : ℤ) : ℚ) / 7)) } :=
  (C10_plan_type_amended "2day_6month" 180 "2day".data (by decide)).2.2.1 2
    (by decide) (by decide)

set_option maxRecDepth 100000 in
theorem convert_below_thousand_isSome :
    ∀ n, n < 1000 → (convert_below_thousand n).isSome = true := by decide

theorem pyRound_mem (q : ℚ) : pyRound q = ⌊q⌋ ∨ pyRound q = ⌊q⌋ + 1 := by
  unfold pyRound
  split_ifs with h1 h2
  · exact Or.inl rfl
  · exact Or.inr rfl
  · rw [round_eq]
    have h3 : ⌊q⌋ ≤ ⌊q + 1 / 2⌋ := Int.floor_le_floor (by linarith)
    have h5 : ⌊q + 1⌋ = ⌊q⌋ + 1 := Int.floor_add_one q
    have h6 : ⌊q + 1 / 2⌋ ≤ ⌊q + 1⌋ := Int.floor_le_floor (by linarith)
    omega

theorem pyTrunc_sub_lt_one (q : ℚ) : q - (pyTrunc q : ℚ) < 1 := by
  unfold pyTrunc
  split_ifs with h
  · have := Int.sub_one_lt_floor q
    linarith
  · have := Int.le_ceil q
    linarith

theorem paise_le_100 (q : ℚ) :
    pyRound ((q - (pyTrunc q : ℚ)) * 100) ≤ 100 := by
  have h1 := pyTrunc_sub_lt_one q
  have hx : (q - (pyTrunc q : ℚ)) * 100 < 100 := by nlinarith
  have hfl : ⌊(q - (pyTrunc q : ℚ)) * 100⌋ < 100 :=
    Int.floor_lt.mpr (by exact_mod_cast hx)
  rcases pyRound_mem ((q - (pyTrunc q : ℚ)) * 100) with h | h <;> omega

/-- The English rendering of a value below one thousand, shared between the
code's convert_below_thousand and the specification-side rendering. -/
def englishBelowThousand (n : Nat) : String := (convert_below_thousand n).getD ""

/-- Specification-side rendering of number_to_words for C5, written from the
specification sentence: the rupee part grouped as crores, lakhs, thousands
and the remainder below 1000, each group rendered in English words with its
unit name, joined in that order, followed by "Rupees"; "Zero Rupees" for a
zero rupee part; a nonzero paise part appends "and ... Paise"; the result
ends with "Only". -/
def numberWordsBody (num : ℚ) : String :=
  let rupees := pyTrunc num
  let paise := pyRound ((num - (rupees : ℚ)) * 100)
  let rupeesStr :=
    if rupees = 0 then "Zero Rupees"
    else
      String.intercalate " "
        ((if 0 < rupees.fdiv 10000000 then
            [englishBelowThousand (rupees.fdiv 10000000).toNat ++ " Crore"]
          else []) ++
         (if 0 < (rupees.fmod 10000000).fdiv 100000 then
            [englishBelowThousand ((rupees.fmod 10000000).fdiv 100000).toNat ++
              " Lakh"]
          else []) ++
         (if 0 < (rupees.fmod 100000).fdiv 1000 then
            [englishBelowThousand ((rupees.fmod 100000).fdiv 1000).toNat ++
              " Thousand"]
          else []) ++
         (if 0 < rupees.fmod 1000 then
            [englishBelowThousand (rupees.fmod 1000).toNat]
          else [])) ++ " Rupees"
  if 0 < paise then
    rupeesStr ++ " and " ++ englishBelowThousand paise.toNat ++ " Paise"
  else rupeesStr

def numberWords (num : ℚ) : String := numberWordsBody num ++ " Only"

theorem group_eq (g : ℤ) (hg : g < 1000) (unit : String) :
    (if 0 < g then (convert_below_thousand g.toNat).map (fun s => [s ++ unit])
     else some []) =
      some (if 0 < g then [englishBelowThousand g.toNat ++ unit] else []) := by
  split_ifs with h
  · obtain ⟨w, hw⟩ := Option.isSome_iff_exists.mp
      (convert_below_thousand_isSome g.toNat (by omega))
    rw [hw]
    simp [englishBelowThousand, hw]
  · rfl

theorem group_eq_nounit (g : ℤ) (hg : g < 1000) :
    (if 0 < g then (convert_below_thousand g.toNat).map (fun s => [s])
     else some []) =
      some (if 0 < g then [englishBelowThousand g.toNat] else []) := by
  split_ifs with h
  · obtain ⟨w, hw⟩ := Option.isSome_iff_exists.mp
      (convert_below_thousand_isSome g.toNat (by omega))
    rw [hw]
    simp [englishBelowThousand, hw]
  · rfl

theorem number_to_words_eq (q : ℚ) (hlt : pyTrunc q < 10000000000) :
    number_to_words q = some (numberWords q) := by
  simp only [number_to_words, numberWords, numberWordsBody]
  generalize hr : pyTrunc q = r at hlt ⊢
  generalize hgp : pyRound ((q - (r : ℚ)) * 100) = p
  have hple : p ≤ 100 := by
    rw [← hgp, ← hr]
    exact paise_le_100 q
  by_cases h0 : r = 0
  · subst h0
    simp only [if_pos rfl]
    by_cases hpp : 0 < p
    · obtain ⟨w, hw⟩ := Option.isSome_iff_exists.mp
        (convert_below_thousand_isSome p.toNat (by omega))
      simp [hpp, hw, englishBelowThousand]
    · simp [hpp]
  · have e1 : r.fdiv 10000000 = r / 10000000 :=
      Int.fdiv_eq_ediv r (by norm_num)
    have e2 : r.fmod 10000000 = r % 10000000 :=
      Int.fmod_eq_emod r (by norm_num)
    have e3 : r.fmod 100000 = r % 100000 :=
      Int.fmod_eq_emod r (by norm_num)
    have e4 : r.fmod 1000 = r % 1000 :=
      Int.fmod_eq_emod r (by norm_num)
    have hc : r.fdiv 10000000 < 1000 := by
      rw [e1]
      omega
    have hl : (r.fmod 10000000).fdiv 100000 < 1000 := by
      rw [e2, Int.fdiv_eq_ediv _ (by norm_num)]
      omega
    have ht : (r.fmod 100000).fdiv 1000 < 1000 := by
      rw [e3, Int.fdiv_eq_ediv _ (by norm_num)]
      omega
    have hh : r.fmod 1000 < 1000 := by
      rw [e4]
      omega
    simp only [if_neg h0]
    rw [group_eq _ hc " Crore", group_eq _ hl " Lakh",
      group_eq _ ht " Thousand", group_eq_nounit _ hh]
    by_cases hpp : 0 < p
    · obtain ⟨w, hw⟩ := Option.isSome_iff_exists.mp
        (convert_below_thousand_isSome p.toNat (by omega))
      simp [hpp, hw, englishBelowThousand]
    · simp [hpp]

/-- C4 counterexample: number_to_words is not total on every numeric input:
at 10^10 rupees (ten billion, a representable amount) the crores group is
1000, convert_below_thousand indexes ones[10], and Python raises IndexError
(none in the embedding) — refuting "returns a value and never raises an
exception … however large". -/
theorem C4_counterexample : number_to_words 10000000000 = none := by
  have hr : pyTrunc (10000000000 : ℚ) = 10000000000 := by
    unfold pyTrunc
    rw [if_pos (by norm_num)]
    simp
  have hfd : ((10000000000 : ℤ).fdiv 10000000) = 1000 := by decide
  have hconv : convert_below_thousand (1000 : ℕ) = none := by decide
  have htn : (1000 : ℤ).toNat = 1000 := rfl
  simp only [number_to_words, hr, hfd, htn]
  norm_num [hconv]

/-- C4 (amended): calculate_gst and calculate_distance are total on all
numeric inputs, and number_to_words is total on every amount whose
truncated rupee part is below 10^10 (at and above 10^10 rupees its list
indexing fails). -/
theorem C4_totality_amended :
    (∀ b r : ℚ, ∃ g, calculate_gst b r = g) ∧
    (∀ lat1 lon1 lat2 lon2 : ℝ, ∃ d,
      calculate_distance lat1 lon1 lat2 lon2 = d) ∧
    (∀ q : ℚ, pyTrunc q < 10000000000 → ∃ s, number_to_words q = some s) :=
  ⟨fun b r => ⟨calculate_gst b r, rfl⟩,
   fun lat1 lon1 lat2 lon2 => ⟨calculate_distance lat1 lon1 lat2 lon2, rfl⟩,
   fun q h => ⟨numberWords q, number_to_words_eq q h⟩⟩

theorem C4_totality_amended_witness :
    (∃ g, calculate_gst 1000 18 = g) ∧
    (∃ d, calculate_distance 1 2 3 4 = d) ∧
    (∃ s, number_to_words 1234 = some s) :=
  ⟨C4_totality_amended.1 1000 18,
   C4_totality_amended.2.1 1 2 3 4,
   C4_totality_amended.2.2 1234 (by
    have h : pyTrunc (1234 : ℚ) = 1234 := by
      unfold pyTrunc
      rw [if_pos (by norm_num)]
      simp
    rw [h]
    norm_num)⟩

/-- C5: for a nonnegative amount whose rupee part is below 10^10,
number_to_words renders the rupee part grouped as crores (10^7), lakhs
(10^5), thousands (10^3) and the remainder below 1000, each group rendered
in English words with its unit name, joined in that order, followed by
"Rupees"; a zero rupee part yields "Zero Rupees"; a nonzero paise part
(the fractional amount times 100, rounded) appends "and … Paise"; and the
result always ends with "Only" — numberWords/numberWordsBody are the
specification-side rendering. -/
theorem C5_number_to_words_rendering (num : ℚ) (h0 : 0 ≤ num)
    (hlt : pyTrunc num < 10000000000) :
    number_to_words num = some (numberWords num) ∧
    ∃ body : String, number_to_words num = some (body ++ " Only") :=
  ⟨number_to_words_eq num hlt,
   ⟨numberWordsBody num, number_to_words_eq num hlt⟩⟩

theorem C5_number_to_words_rendering_witness :
    number_to_words 1234 = some (numberWords 1234) ∧
    ∃ body : String, number_to_words 1234 = some (body ++ " Only") :=
  C5_number_to_words_rendering 1234 (by norm_num) (by
    have h : pyTrunc (1234 : ℚ) = 1234 := by
      unfold pyTrunc
      rw [if_pos (by norm_num)]
      simp
    rw [h]
    norm_num)

section GeoTheorems

noncomputable section

/-- The Haversine intermediate `a` of calculate_distance. -/
def havA (lat1 lon1 lat2 lon2 : ℝ) : ℝ :=
  Real.sin (radians (lat2 - lat1) / 2) ^ 2 +
    Real.cos (radians lat1) * Real.cos (radians lat2) *
      Real.sin (radians (lon2 - lon1) / 2) ^ 2

theorem calculate_distance_eq (lat1 lon1 lat2 lon2 : ℝ) :
    calculate_distance lat1 lon1 lat2 lon2 =
      6371000 * (2 * atan2 (Real.sqrt (havA lat1 lon1 lat2 lon2))
        (Real.sqrt (1 - havA lat1 lon1 lat2 lon2))) := rfl

theorem atan2_nonneg {y x : ℝ} (hy : 0 ≤ y) (hx : 0 ≤ x) : 0 ≤ atan2 y x := by
  unfold atan2
  by_cases h1 : 0 < x
  · rw [if_pos h1]
    have h := Real.arctan_strictMono.monotone (div_nonneg hy h1.le)
    rwa [Real.arctan_zero] at h
  · have hx0 : x = 0 := le_antisymm (not_lt.mp h1) hx
    subst hx0
    rw [if_neg h1]
    rw [if_neg (by rintro ⟨h, _⟩; exact absurd h (lt_irrefl 0))]
    rw [if_neg (by rintro ⟨h, _⟩; exact absurd h (lt_irrefl 0))]
    by_cases h5 : (0 : ℝ) = 0 ∧ 0 < y
    · rw [if_pos h5]
      positivity
    · rw [if_neg h5]
      rw [if_neg (by rintro ⟨_, h⟩; exact absurd hy (not_le.mpr h))]

theorem havA_symm (lat1 lon1 lat2 lon2 : ℝ) :
    havA lat1 lon1 lat2 lon2 = havA lat2 lon2 lat1 lon1 := by
  unfold havA
  have h1 : radians (lat1 - lat2) = -(radians (lat2 - lat1)) := by
    unfold radians
    ring
  have h2 : radians (lon1 - lon2) = -(radians (lon2 - lon1)) := by
    unfold radians
    ring
  rw [h1, h2, neg_div, neg_div, Real.sin_neg, Real.sin_neg, neg_sq, neg_sq]
  ring

theorem havA_self (lat lon : ℝ) : havA lat lon lat lon = 0 := by
  unfold havA
  simp [sub_self, radians]

/-- C2: calculate_distance is the Haversine great-circle distance in meters
with Earth radius 6371000: R * 2 * atan2(sqrt a, sqrt (1 - a)) over the
radian-converted inputs; it is nonnegative, symmetric in its two points,
and zero when the points coincide. -/
theorem C2_calculate_distance_haversine (lat1 lon1 lat2 lon2 : ℝ) :
    calculate_distance lat1 lon1 lat2 lon2 =
      6371000 * (2 * atan2
        (Real.sqrt (Real.sin (radians (lat2 - lat1) / 2) ^ 2 +
          Real.cos (radians lat1) * Real.cos (radians lat2) *
            Real.sin (radians (lon2 - lon1) / 2) ^ 2))
        (Real.sqrt (1 - (Real.sin (radians (lat2 - lat1) / 2) ^ 2 +
          Real.cos (radians lat1) * Real.cos (radians lat2) *
            Real.sin (radians (lon2 - lon1) / 2) ^ 2)))) ∧
    0 ≤ calculate_distance lat1 lon1 lat2 lon2 ∧
    calculate_distance lat1 lon1 lat2 lon2 =
      calculate_distance lat2 lon2 lat1 lon1 ∧
    calculate_distance lat1 lon1 lat1 lon1 = 0 := by
  refine ⟨rfl, ?_, ?_, ?_⟩
  · rw [calculate_distance_eq]
    have h := atan2_nonneg (Real.sqrt_nonneg (havA lat1 lon1 lat2 lon2))
      (Real.sqrt_nonneg (1 - havA lat1 lon1 lat2 lon2))
    have h2 : (0 : ℝ) ≤ 2 * atan2 (Real.sqrt (havA lat1 lon1 lat2 lon2))
        (Real.sqrt (1 - havA lat1 lon1 lat2 lon2)) := by linarith
    exact mul_nonneg (by norm_num) h2
  · rw [calculate_distance_eq, calculate_distance_eq,
      havA_symm lat1 lon1 lat2 lon2]
  · rw [calculate_distance_eq, havA_self, Real.sqrt_zero, sub_zero,
      Real.sqrt_one]
    unfold atan2
    rw [if_pos one_pos]
    simp [Real.arctan_zero]

/-- C3: for a coach checking in against a center with configured (truthy)
lat/lng, geofence_check_in inserts exactly one coach_checkins record whose
within_geofence flag is set to whether the Haversine distance is within the
geofence radius (100 m default), and the response reports success exactly
when the distance is within the radius; a rejection carries the rounded
distance and the required_distance. -/
theorem C3_geofence_check_in (role coach_id : String) (c : Center)
    (checkin : GeofenceCheckIn) (clat clng : ℝ)
    (hrole : role = "coach") (hlat : c.lat = some clat) (hlat0 : clat ≠ 0)
    (hlng : c.lng = some clng) (hlng0 : clng ≠ 0) :
    ∃ log : CheckinLog,
      (geofence_check_in role coach_id (some c) checkin).2 = [log] ∧
      (log.within_geofence = true ↔
        calculate_distance checkin.latitude checkin.longitude clat clng ≤
          c.geofence_radius.getD 100) ∧
      (calculate_distance checkin.latitude checkin.longitude clat clng ≤
          c.geofence_radius.getD 100 →
        (geofence_check_in role coach_id (some c) checkin).1 =
          .resp { success := true,
                  distance := round2R (calculate_distance checkin.latitude
                    checkin.longitude clat clng),
                  required_distance := none, within_geofence := true }) ∧
      (¬ calculate_distance checkin.latitude checkin.longitude clat clng ≤
          c.geofence_radius.getD 100 →
        (geofence_check_in role coach_id (some c) checkin).1 =
          .resp { success := false,
                  distance := round2R (calculate_distance checkin.latitude
                    checkin.longitude clat clng),
                  required_distance := some (c.geofence_radius.getD 100),
                  within_geofence := false }) := by
  subst hrole
  simp only [geofence_check_in, hlat, hlng]
  rw [if_neg (by simp)]
  rw [if_neg (not_or.mpr ⟨hlat0, hlng0⟩)]
  by_cases hd : calculate_distance checkin.latitude checkin.longitude
      clat clng ≤ c.geofence_radius.getD 100
  · simp only [if_pos hd]
    exact ⟨_, rfl, by simp [hd], fun _ => trivial, fun hc => absurd hd hc⟩
  · simp only [if_neg hd]
    exact ⟨_, rfl, by simp [hd], fun hc => absurd hc hd, fun _ => trivial⟩

end

end GeoTheorems

theorem C3_geofence_check_in_witness :
    ∃ log : CheckinLog,
      (geofence_check_in "coach" "coach-1"
        (some { lat := some 12, lng := some 77, geofence_radius := none })
        { latitude := 12, longitude := 77, center_id := "center-1" }).2 =
        [log] ∧
      (log.within_geofence = true ↔
        calculate_distance 12 77 12 77 ≤
          (Option.getD (none : Option ℝ) 100)) ∧
      (calculate_distance 12 77 12 77 ≤ (Option.getD (none : Option ℝ) 100) →
        (geofence_check_in "coach" "coach-1"
          (some { lat := some 12, lng := some 77, geofence_radius := none })
          { latitude := 12, longitude := 77, center_id := "center-1" }).1 =
          .resp { success := true,
                  distance := round2R (calculate_distance 12 77 12 77),
                  required_distance := none, within_geofence := true }) ∧
      (¬ calculate_distance 12 77 12 77 ≤ (Option.getD (none : Option ℝ) 100) →
        (geofence_check_in "coach" "coach-1"
          (some { lat := some 12, lng := some 77, geofence_radius := none })
          { latitude := 12, longitude := 77, center_id := "center-1" }).1 =
          .resp { success := false,
                  distance := round2R (calculate_distance 12 77 12 77),
                  required_distance := some ((Option.getD (none : Option ℝ) 100)),
                  within_geofence := false }) :=
  C3_geofence_check_in "coach" "coach-1"
    { lat := some 12, lng := some 77, geofence_radius := none }
    { latitude := 12, longitude := 77, center_id := "center-1" } 12 77
    rfl rfl (by norm_num) rfl (by norm_num)

end TumbleGym
